import Mathlib

/-!
Verification of the qrcode-pro symbol-encoding engine against its specification.

The definitions below are a shallow embedding of `src/core/qr-generator.ts`
(class `QRGenerator`), `src/index.ts` (class `QRCode`) and
`src/utils/validation.ts` (class `ValidationUtils`).  JavaScript numbers are
modelled as `Nat` (all quantities involved are small non-negative integers;
where the source computes with IEEE doubles the accompanying comment justifies
the exact integer form), strings as `String`, fallible methods as
`Except String`, and the boolean matrix as a list of lists of `Bool`.
-/

set_option maxRecDepth 8000

set_option maxHeartbeats 1000000

namespace QR

/-- `ErrorCorrectionLevel` from `types.ts`: the four levels L/M/Q/H. -/
inductive ECLevel
  | L
  | M
  | Q
  | H
deriving DecidableEq, Repr

/-- `DataMode` enum from `qr-generator.ts` (KANJI is never produced by
`detectDataMode` and is omitted). -/
inductive DataMode
  | NUMERIC
  | ALPHANUMERIC
  | BYTE
deriving DecidableEq, Repr

/-- The numeric value of the `DataMode` enum member (NUMERIC = 1,
ALPHANUMERIC = 2, BYTE = 4), used as the 4-bit mode indicator. -/
def DataMode.value : DataMode → Nat
  | .NUMERIC => 1
  | .ALPHANUMERIC => 2
  | .BYTE => 4

/-- The error multiplier of `getCapacity`, scaled by 10 to stay in `Nat`:
the source multiplies by 1 / 0.8 / 0.6 / 0.4. -/
def ECLevel.capFactor : ECLevel → Nat
  | .L => 10
  | .M => 8
  | .Q => 6
  | .H => 4

/-- `QRGenerator.getCapacity`.  The source computes
`Math.floor(version * 10 * errorMultiplier)` in IEEE doubles with multiplier
1 / 0.8 / 0.6 / 0.4; for every version 1..40 the double product rounds to
exactly `10*v`, `8*v`, `6*v`, `4*v` respectively (the relative error of the
stored multiplier is below half an ulp of the integer result), so the integer
form below is exact.  The `mode` argument is accepted and ignored exactly as
in the source, where `capacityKey` is computed but never used. -/
def getCapacity (version : Nat) (errorLevel : ECLevel) (_mode : DataMode) : Nat :=
  version * errorLevel.capFactor

/-- The 45-character alphanumeric set, in the source's order
(`encodeAlphanumeric`'s `alphanumericChars`, also the character class of the
alphanumeric regex in `detectDataMode`). -/
def alnumChars : List Char :=
  "0123456789ABCDEFGHIJKLMNOPQRSTUVWXYZ $%*+-./:".data

/-- Membership in the 45-character class `[0-9A-Z $%*+\-./:]` of the
alphanumeric regex in `QRGenerator.detectDataMode`. -/
def isAlnumChar (c : Char) : Bool :=
  alnumChars.contains c

/-- `QRGenerator.detectDataMode`.  The regex `^\d+$` holds iff the string is
non-empty and every character is an ASCII decimal digit; `^[0-9A-Z $%*+\-./:]+$`
holds iff the string is non-empty and every character is in the 45-character
class. -/
def detectDataMode (s : String) : DataMode :=
  if !s.data.isEmpty && s.data.all Char.isDigit then .NUMERIC
  else if !s.data.isEmpty && s.data.all isAlnumChar then .ALPHANUMERIC
  else .BYTE

/-- The scanning loop of `QRGenerator.determineVersion`, with structural
fuel (`fuel = 41 - v` at every call, so the fuel never runs out before the
`40 < v` exit): try versions `v`, `v+1`, ... up to 40 and return the first
whose capacity accommodates the payload; `none` models the
`"Data too long for QR code"` throw. -/
def scanVersionAux (s : String) (l : ECLevel) : Nat → Nat → Option Nat
  | 0, _ => none
  | fuel + 1, v =>
    if 40 < v then none
    else if s.length ≤ getCapacity v l (detectDataMode s) then some v
    else scanVersionAux s l fuel (v + 1)

/-- The scanning loop of `QRGenerator.determineVersion` from version `v`. -/
def scanVersion (s : String) (l : ECLevel) (v : Nat) : Option Nat :=
  scanVersionAux s l (41 - v) v

/-- `QRGenerator.determineVersion`: scan versions 1..40. -/
def determineVersion (s : String) (l : ECLevel) : Option Nat :=
  scanVersion s l 1

/-- `QRGenerator.getModuleCount`. -/
def getModuleCount (version : Nat) : Nat :=
  17 + 4 * version

/-- `QRGenerator.toBits`: the big-endian list of the `bitCount` low bits of
`num` (the source pushes `(num >> i) & 1` for `i = bitCount-1 .. 0`; all
numbers fed to it are far below 2^31, so the JS 32-bit shift agrees with the
`Nat` shift). -/
def toBits (num : Nat) (bitCount : Nat) : List Nat :=
  (List.range bitCount).map (fun i => (num >>> (bitCount - 1 - i)) % 2)

/-- `QRGenerator.getCharCountBits`. -/
def getCharCountBits : DataMode → Nat
  | .NUMERIC => 10
  | .ALPHANUMERIC => 9
  | .BYTE => 8

/-- `parseInt(group, 10)` for the all-digit groups fed to it by
`encodeNumeric`: the decimal value of the digit list. -/
def parseDigits (cs : List Char) : Nat :=
  cs.foldl (fun a c => a * 10 + (c.toNat - 48)) 0

/-- The grouping loop of `QRGenerator.encodeNumeric` over the character list:
`substr(i, 3)` yields chunks of 3 with a final chunk of 1 or 2, packed into
10 / 4 / 7 bits respectively. -/
def encodeNumericChunks : List Char → List Nat
  | a :: b :: c :: rest => toBits (parseDigits [a, b, c]) 10 ++ encodeNumericChunks rest
  | [a, b] => toBits (parseDigits [a, b]) 7
  | [a] => toBits (parseDigits [a]) 4
  | [] => []

/-- `QRGenerator.encodeNumeric`. -/
def encodeNumeric (s : String) : List Nat :=
  encodeNumericChunks s.data

/-- `alphanumericChars.indexOf(c)` for characters of the 45-character set
(the only characters `encodeAlphanumeric` is ever applied to). -/
def alnumIndex (c : Char) : Nat :=
  alnumChars.indexOf c

/-- The pairing loop of `QRGenerator.encodeAlphanumeric`: pairs packed as
`c1*45 + c2` in 11 bits, a trailing single character in 6 bits. -/
def encodeAlnumChunks : List Char → List Nat
  | a :: b :: rest => toBits (alnumIndex a * 45 + alnumIndex b) 11 ++ encodeAlnumChunks rest
  | [a] => toBits (alnumIndex a) 6
  | [] => []

/-- `QRGenerator.encodeAlphanumeric`. -/
def encodeAlphanumeric (s : String) : List Nat :=
  encodeAlnumChunks s.data

/-- The per-character loop of `QRGenerator.encodeByte`: `charCodeAt` packed
as 8 bits (for the ASCII payloads of interest `charCodeAt` is `Char.toNat`). -/
def encodeByteChunks : List Char → List Nat
  | c :: rest => toBits c.toNat 8 ++ encodeByteChunks rest
  | [] => []

/-- `QRGenerator.encodeByte`. -/
def encodeByte (s : String) : List Nat :=
  encodeByteChunks s.data

/-- `QRGenerator.encodeData`: 4-bit mode indicator, then the character count
indicator, then the mode-specific payload bits.  Nothing else is appended:
the source has no terminator, no pad-to-codeword-boundary and no 0xEC/0x11
padding, and the result is a list of bits, not of codewords. -/
def encodeData (s : String) : List Nat :=
  let mode := detectDataMode s
  toBits mode.value 4 ++ toBits s.length (getCharCountBits mode) ++
    (match mode with
      | .NUMERIC => encodeNumeric s
      | .ALPHANUMERIC => encodeAlphanumeric s
      | .BYTE => encodeByte s)

/-- `QRGenerator.addErrorCorrection`: the source returns `[...data]`, a copy
of its input, computing no error-correction codewords at all. -/
def addErrorCorrection (data : List Nat) : List Nat :=
  data

/-- The boolean module matrix (`QRMatrix` in the source), row-major:
`matrix[y][x]`. -/
abbrev QRMatrix := List (List Bool)

/-- Read `matrix[y][x]` (out-of-range reads never occur on the pipeline's
fixed-size matrices; they default to `false`). -/
def getM (m : QRMatrix) (y x : Nat) : Bool :=
  (m.getD y []).getD x false

/-- Write `matrix[y][x] = b` (a no-op out of range, matching the
`isInBounds` guards of the source). -/
def setM (m : QRMatrix) (y x : Nat) (b : Bool) : QRMatrix :=
  m.set y ((m.getD y []).set x b)

/-- `QRGenerator.isInBounds` (coordinates are `Nat`, so only the upper
bounds remain). -/
def isInBounds (modules x y : Nat) : Bool :=
  x < modules && y < modules

/-- `QRGenerator.isEmpty`: the source unconditionally returns `true`
("in a full implementation, track which modules are already set"). -/
def isEmpty (_x _y : Nat) : Bool :=
  true

/-- `QRGenerator.isFinderPattern`: the three 9-wide corner bounding boxes. -/
def isFinderPattern (modules x y : Nat) : Bool :=
  (x < 9 && y < 9) || (modules - 8 ≤ x && y < 9) || (x < 9 && modules - 8 ≤ y)

/-- `QRGenerator.isDataModule`: not in a finder box and not on the timing
row/column. -/
def isDataModule (modules x y : Nat) : Bool :=
  !isFinderPattern modules x y && x ≠ 6 && y ≠ 6

/-- `QRGenerator.initializeMatrix`. -/
def initializeMatrix (modules : Nat) : QRMatrix :=
  List.replicate modules (List.replicate modules false)

/-- The fixed 7×7 finder pattern stamped by `addFinderPattern`. -/
def finderPattern : List (List Bool) :=
  [[true, true, true, true, true, true, true],
   [true, false, false, false, false, false, true],
   [true, false, true, true, true, false, true],
   [true, false, true, true, true, false, true],
   [true, false, true, true, true, false, true],
   [true, false, false, false, false, false, true],
   [true, true, true, true, true, true, true]]

/-- `QRGenerator.addFinderPattern`: stamp the 7×7 pattern at
`(startX, startY)` (bounds-guarded). -/
def addFinderPattern (modules : Nat) (m : QRMatrix) (startX startY : Nat) : QRMatrix :=
  (List.range 7).foldl
    (fun m y =>
      (List.range 7).foldl
        (fun m x =>
          if isInBounds modules (startX + x) (startY + y) then
            setM m (startY + y) (startX + x) (getM finderPattern y x)
          else m)
        m)
    m

/-- `QRGenerator.addFinderPatterns`: top-left, top-right, bottom-left. -/
def addFinderPatterns (modules : Nat) (m : QRMatrix) : QRMatrix :=
  [(0, 0), (modules - 7, 0), (0, modules - 7)].foldl
    (fun m pos => addFinderPattern modules m pos.1 pos.2) m

/-- `QRGenerator.addSeparator`: the source writes `false` only where the
cell is in bounds, `isEmpty` (always true) and NOT inside a finder box —
and every cell of each 8×8 separator region is inside a finder box, so the
whole method is a no-op; it is embedded faithfully nonetheless. -/
def addSeparator (modules : Nat) (m : QRMatrix) (startX startY width height : Nat) : QRMatrix :=
  (List.range height).foldl
    (fun m dy =>
      (List.range width).foldl
        (fun m dx =>
          let x := startX + dx
          let y := startY + dy
          if isInBounds modules x y && isEmpty x y && !isFinderPattern modules x y then
            setM m y x false
          else m)
        m)
    m

/-- `QRGenerator.addSeparators`. -/
def addSeparators (modules : Nat) (m : QRMatrix) : QRMatrix :=
  let m := addSeparator modules m 0 0 8 8
  let m := addSeparator modules m (modules - 8) 0 8 8
  addSeparator modules m 0 (modules - 8) 8 8

/-- `QRGenerator.getAlignmentPatternPositions` (the source's simplified
placement: one pattern, none for version 1). -/
def getAlignmentPatternPositions (version modules : Nat) : List (Nat × Nat) :=
  if version = 2 then [(16, 16)]
  else if 3 ≤ version then [((modules - 13) / 2, (modules - 13) / 2)]
  else []

/-- The fixed 5×5 alignment pattern of `addAlignmentPattern`. -/
def alignmentPattern : List (List Bool) :=
  [[true, true, true, true, true],
   [true, false, false, false, true],
   [true, false, true, false, true],
   [true, false, false, false, true],
   [true, true, true, true, true]]

/-- `QRGenerator.addAlignmentPattern`: stamp the 5×5 pattern centred at
`(centerX, centerY)`.  The source iterates offsets −2..2; every centre the
source produces is ≥ 8, so `centerX + dx - 2` in `Nat` agrees with the signed
arithmetic. -/
def addAlignmentPattern (modules : Nat) (m : QRMatrix) (centerX centerY : Nat) : QRMatrix :=
  (List.range 5).foldl
    (fun m dy =>
      (List.range 5).foldl
        (fun m dx =>
          let posX := centerX + dx - 2
          let posY := centerY + dy - 2
          if isInBounds modules posX posY && isEmpty posX posY then
            setM m posY posX (getM alignmentPattern dy dx)
          else m)
        m)
    m

/-- `QRGenerator.addAlignmentPatterns`. -/
def addAlignmentPatterns (version modules : Nat) (m : QRMatrix) : QRMatrix :=
  if version < 2 then m
  else
    (getAlignmentPatternPositions version modules).foldl
      (fun m pos => addAlignmentPattern modules m pos.1 pos.2) m

/-- `QRGenerator.addTimingPatterns`: horizontal on row 6 then vertical on
column 6, for coordinates 8 .. modules−9 (`isEmpty` is always true). -/
def addTimingPatterns (modules : Nat) (m : QRMatrix) : QRMatrix :=
  let m :=
    (List.range' 8 (modules - 16)).foldl
      (fun m x => if isEmpty x 6 then setM m 6 x (x % 2 = 0) else m) m
  (List.range' 8 (modules - 16)).foldl
    (fun m y => if isEmpty 6 y then setM m y 6 (y % 2 = 0) else m) m

/-- `QRGenerator.addDarkModule`: the fixed dark module at
`(x, y) = (8, 4*version + 9)`. -/
def addDarkModule (version modules : Nat) (m : QRMatrix) : QRMatrix :=
  let x := 8
  let y := 4 * version + 9
  if isInBounds modules x y then setM m y x true else m

/-- The sequence of column indices visited by the outer loop of
`placeDataModules`, with structural fuel (the column shrinks by at least one
per step, so fuel `c` always suffices): `col` starts at `c`, each iteration
uses `col` (bumped from 6 to 5 to skip the timing column) and then decreases
it by 2, stopping when `col` reaches 0. -/
def colListAux : Nat → Nat → List Nat
  | 0, _ => []
  | fuel + 1, c =>
    if c = 0 then []
    else
      let next := if c = 6 then 5 else c
      next :: colListAux fuel (next - 2)

/-- The column sequence of `placeDataModules` starting at `c`. -/
def colList (c : Nat) : List Nat :=
  colListAux c c

/-- The cells visited while processing one column pair of
`placeDataModules`: for each `count`, the two cells `(col, y)` and
`(col−1, y)`, with `y` running bottom-to-top when `up` and top-to-bottom
otherwise. -/
def colPositions (modules col : Nat) (up : Bool) : List (Nat × Nat) :=
  (List.range modules).flatMap
    (fun count =>
      let y := if up then modules - 1 - count else count
      [(col, y), (col - 1, y)])

/-- The full in-order visit sequence of `placeDataModules`: the direction
starts upward and flips after every column pair. -/
def placeOrder (modules : Nat) : List (Nat × Nat) :=
  ((colList (modules - 1)).foldl
    (fun (acc : List (Nat × Nat) × Bool) col =>
      (acc.1 ++ colPositions modules col acc.2, !acc.2))
    ([], true)).1

/-- The loop body of `placeDataModules`: at an in-bounds cell (`isEmpty` is
always true, so no cell is skipped) write the next data bit if any remain,
else write `false` padding; the second state component is `dataIndex`. -/
def placeStep (modules : Nat) (data : List Nat) (st : QRMatrix × Nat) (pos : Nat × Nat) :
    QRMatrix × Nat :=
  if isInBounds modules pos.1 pos.2 && isEmpty pos.1 pos.2 then
    if h : st.2 < data.length then
      (setM st.1 pos.2 pos.1 (data.get ⟨st.2, h⟩ = 1), st.2 + 1)
    else
      (setM st.1 pos.2 pos.1 false, st.2)
  else st

/-- `QRGenerator.placeDataModules`: walk the zigzag order applying
`placeStep` to every visited cell. -/
def placeDataModules (modules : Nat) (data : List Nat) (m : QRMatrix) : QRMatrix :=
  ((placeOrder modules).foldl (placeStep modules data) (m, 0)).1

/-- `QRGenerator.shouldApplyMask`: the eight mask formulas (any other
pattern value yields `false`, as in the source's `default` branch). -/
def shouldApplyMask (x y pattern : Nat) : Bool :=
  if pattern = 0 then (x + y) % 2 = 0
  else if pattern = 1 then y % 2 = 0
  else if pattern = 2 then x % 3 = 0
  else if pattern = 3 then (x + y) % 3 = 0
  else if pattern = 4 then (y / 2 + x / 3) % 2 = 0
  else if pattern = 5 then (x * y) % 2 + (x * y) % 3 = 0
  else if pattern = 6 then ((x * y) % 2 + (x * y) % 3) % 2 = 0
  else if pattern = 7 then ((x + y) % 2 + (x * y) % 3) % 2 = 0
  else false

/-- `QRGenerator.applyMaskToMatrix`: the source loops over all
`(x, y)` with `x, y < modules` and flips cell `(x, y)` in place exactly when
`isDataModule && shouldApplyMask`; since each cell is written at most once as
a function of its own old value, the loop acting on a `modules × modules`
matrix equals this cell-by-cell rebuild. -/
def applyMaskToMatrix (modules : Nat) (m : QRMatrix) (pattern : Nat) : QRMatrix :=
  (List.range modules).map
    (fun y =>
      (List.range modules).map
        (fun x =>
          let b := getM m y x
          if isDataModule modules x y && shouldApplyMask x y pattern then !b else b))

/-- Row `y` of the matrix as scanned by the penalty loops
(`x = 0 .. modules−1`). -/
def rowLine (modules : Nat) (m : QRMatrix) (y : Nat) : List Bool :=
  (List.range modules).map (fun x => getM m y x)

/-- Column `x` of the matrix as scanned by the penalty loops
(`y = 0 .. modules−1`). -/
def colLine (modules : Nat) (m : QRMatrix) (x : Nat) : List Bool :=
  (List.range modules).map (fun y => getM m y x)

/-- The run-length tail of one line scan of `calculateAdjacentPenalty`:
`count` is the length of the current run ending at `prev`, `pen` the penalty
accumulated so far; a run of length ≥ 5 contributes `count − 2` when it ends
(or at the end of the line). -/
def runPenAux : List Bool → Bool → Nat → Nat → Nat
  | [], _, count, pen => if 5 ≤ count then pen + count - 2 else pen
  | b :: rest, prev, count, pen =>
    if b == prev then runPenAux rest b (count + 1) pen
    else runPenAux rest b 1 (if 5 ≤ count then pen + count - 2 else pen)

/-- One line (row or column) of `calculateAdjacentPenalty`. -/
def runPenaltyLine : List Bool → Nat
  | [] => 0
  | b :: rest => runPenAux rest b 1 0

/-- `QRGenerator.calculateAdjacentPenalty`: rule 1 over all rows, then all
columns. -/
def calculateAdjacentPenalty (modules : Nat) (m : QRMatrix) : Nat :=
  ((List.range modules).map (fun y => runPenaltyLine (rowLine modules m y))).sum +
    ((List.range modules).map (fun x => runPenaltyLine (colLine modules m x))).sum

/-- `QRGenerator.calculateBlockPenalty`: 3 points for every 2×2 block of one
colour. -/
def calculateBlockPenalty (modules : Nat) (m : QRMatrix) : Nat :=
  ((List.range (modules - 1)).map
    (fun y =>
      ((List.range (modules - 1)).map
        (fun x =>
          let c := getM m y x
          if (getM m y (x + 1) == c) && (getM m (y + 1) x == c) &&
              (getM m (y + 1) (x + 1) == c) then 3 else 0)).sum)).sum

/-- `QRGenerator.calculateMaskPenalty`: the source's "simplified penalty
calculation" — only rules 1 and 2. -/
def calculateMaskPenalty (modules : Nat) (m : QRMatrix) : Nat :=
  calculateAdjacentPenalty modules m + calculateBlockPenalty modules m

/-- The penalty `selectBestMaskPattern` assigns to mask candidate
`pattern`: the two implemented rules scored on the masked trial copy of the
matrix. -/
def maskPenaltyOf (modules : Nat) (m : QRMatrix) (pattern : Nat) : Nat :=
  calculateMaskPenalty modules (applyMaskToMatrix modules m pattern)

/-- The loop body of `selectBestMaskPattern`, abstracted over the penalty
function: `none` models the initial `Infinity`, and the candidate replaces
the current best only on a strictly smaller penalty. -/
def bestStep (pen : Nat → Nat) (st : Nat × Option Nat) (p : Nat) : Nat × Option Nat :=
  match st.2 with
  | none => (p, some (pen p))
  | some lowest => if pen p < lowest then (p, some (pen p)) else st

/-- `QRGenerator.selectBestMaskPattern`: try patterns 0..7 in order on a
masked copy of the matrix, keeping the first pattern of the lowest trial
penalty. -/
def selectBestMaskPattern (modules : Nat) (m : QRMatrix) : Nat :=
  ((List.range 8).foldl (bestStep (maskPenaltyOf modules m)) (0, none)).1

/-- The mask dispatch of `QRGenerator.generate`:
`maskPattern !== undefined ? maskPattern : this.selectBestMaskPattern()`. -/
def resolveMask (modules : Nat) (maskPattern : Option Nat) (m : QRMatrix) : Nat :=
  match maskPattern with
  | some p => p
  | none => selectBestMaskPattern modules m

/-- `QRGenerator.validateInput` as an `Except`: the empty check runs first,
then the version range check. -/
def validateInput (data : String) (version : Nat) : Except String Unit :=
  if data.length = 0 then .error "Input data cannot be empty"
  else if version < 1 || 40 < version then .error "Version must be between 1 and 40"
  else .ok ()

/-- `ValidationUtils.validateData` restricted to string payloads: invalid
exactly when the string is empty (the null/undefined, non-finite-number and
empty-buffer branches do not apply to strings), with the
`ERROR_MESSAGES.INVALID_DATA` message. -/
def validateData (data : String) : Except String Unit :=
  if data.length = 0 then .error "Invalid input data" else .ok ()

/-- The version resolution of `QRGenerator.generate`:
`version || this.determineVersion(...)` — an explicit version is used unless
it is the falsy 0; otherwise `determineVersion` runs and its failure is the
`"Data too long for QR code"` throw. -/
def chooseVersion (data : String) (level : ECLevel) (version? : Option Nat) :
    Except String Nat :=
  let auto : Except String Nat :=
    match determineVersion data level with
    | some v => .ok v
    | none => .error "Data too long for QR code"
  match version? with
  | some v => if v = 0 then auto else .ok v
  | none => auto

/-- The structural-plus-data phase of `QRGenerator.generate`, before the
mask: initialize, stamp finder patterns, separators, alignment patterns,
timing patterns, the dark module (`reserveFormatInfo` / `reserveVersionInfo`
are empty placeholder methods), then encode the payload, run the (identity)
error-correction stage and place the bits. -/
def buildPreMaskMatrix (data : String) (version modules : Nat) : QRMatrix :=
  let m := initializeMatrix modules
  let m := addFinderPatterns modules m
  let m := addSeparators modules m
  let m := addAlignmentPatterns version modules m
  let m := addTimingPatterns modules m
  let m := addDarkModule version modules m
  let encoded := encodeData data
  let finalData := addErrorCorrection encoded
  placeDataModules modules finalData m

/-- `QRGenerator.generate` for string payloads (`normalizeData` is the
identity on strings).  `addFormatInfo` and `addVersionInfo` compute bit
lists but never write them into the matrix, so the masked matrix is the
returned value. -/
def generate (data : String) (level : ECLevel) (version? maskPattern? : Option Nat) :
    Except String QRMatrix :=
  match chooseVersion data level version? with
  | .error e => .error e
  | .ok version =>
    let modules := getModuleCount version
    match validateInput data version with
    | .error e => .error e
    | .ok _ =>
      let preMask := buildPreMaskMatrix data version modules
      .ok (applyMaskToMatrix modules preMask (resolveMask modules maskPattern? preMask))

/-- The `maskPattern` entry of `QRCode.mergeOptions`:
`options.maskPattern || undefined`, which sends the falsy value 0 to
`undefined` and passes 1..7 through. -/
def mergeMaskPattern (maskPattern? : Option Nat) : Option Nat :=
  match maskPattern? with
  | some v => if v = 0 then none else some v
  | none => none

/-- Modelled from the spec: the 1:1:3:1:1 finder-like sequence of penalty
rule 3 with its four-module light margin on one side
(dark,light,3×dark,light,dark followed by four light modules). -/
def finderSeq1 : List Bool :=
  [true, false, true, true, true, false, true, false, false, false, false]

/-- Modelled from the spec: the mirrored finder-like sequence (four light
modules before the 1:1:3:1:1 core). -/
def finderSeq2 : List Bool :=
  [false, false, false, false, true, false, true, true, true, false, true]

/-- Modelled from the spec: penalty rule 3 — 40 points for every occurrence
of a finder-pattern-like 1:1:3:1:1 sequence (with its light margin) in any
row or column.  The source implements no such rule. -/
def specFinderPenalty (modules : Nat) (m : QRMatrix) : Nat :=
  let window := fun (line : List Bool) (i : Nat) => (List.range 11).map (fun j => line.getD (i + j) false)
  let lineScore := fun (line : List Bool) =>
    ((List.range (modules - 10)).map
      (fun i => if window line i = finderSeq1 || window line i = finderSeq2 then 40 else 0)).sum
  ((List.range modules).map (fun y => lineScore (rowLine modules m y))).sum +
    ((List.range modules).map (fun x => lineScore (colLine modules m x))).sum

/-- Modelled from the spec: penalty rule 4 — deviation of the dark-module
percentage from 50%, 10 points per full 5% band of deviation.  The source
implements no such rule. -/
def specDarkPenalty (modules : Nat) (m : QRMatrix) : Nat :=
  let dark := ((List.range modules).map
    (fun y => ((List.range modules).map (fun x => if getM m y x then 1 else 0)).sum)).sum
  let total := modules * modules
  let percent := dark * 100 / total
  let deviation := if 50 ≤ percent then percent - 50 else 50 - percent
  deviation / 5 * 10

/-- Modelled from the spec: the four standard penalty rules of §4.6 — the
source's rules 1 and 2 (which match the spec's wording) plus the modelled
rules 3 and 4. -/
def specMaskPenalty (modules : Nat) (m : QRMatrix) : Nat :=
  calculateAdjacentPenalty modules m + calculateBlockPenalty modules m +
    specFinderPenalty modules m + specDarkPenalty modules m

/-- Literal value of the version-1 structural matrix (finder patterns,
separators, alignment, timing, dark module) before data placement; checked
against the stamping pipeline below. -/
def stampLit : QRMatrix :=
  [[true, true, true, true, true, true, true, false, false, false, false, false, false, false, true, true, true, true, true, true, true],
   [true, false, false, false, false, false, true, false, false, false, false, false, false, false, true, false, false, false, false, false, true],
   [true, false, true, true, true, false, true, false, false, false, false, false, false, false, true, false, true, true, true, false, true],
   [true, false, true, true, true, false, true, false, false, false, false, false, false, false, true, false, true, true, true, false, true],
   [true, false, true, true, true, false, true, false, false, false, false, false, false, false, true, false, true, true, true, false, true],
   [true, false, false, false, false, false, true, false, false, false, false, false, false, false, true, false, false, false, false, false, true],
   [true, true, true, true, true, true, true, false, true, false, true, false, true, false, true, true, true, true, true, true, true],
   [false, false, false, false, false, false, false, false, false, false, false, false, false, false, false, false, false, false, false, false, false],
   [false, false, false, false, false, false, true, false, false, false, false, false, false, false, false, false, false, false, false, false, false],
   [false, false, false, false, false, false, false, false, false, false, false, false, false, false, false, false, false, false, false, false, false],
   [false, false, false, false, false, false, true, false, false, false, false, false, false, false, false, false, false, false, false, false, false],
   [false, false, false, false, false, false, false, false, false, false, false, false, false, false, false, false, false, false, false, false, false],
   [false, false, false, false, false, false, true, false, false, false, false, false, false, false, false, false, false, false, false, false, false],
   [false, false, false, false, false, false, false, false, true, false, false, false, false, false, false, false, false, false, false, false, false],
   [true, true, true, true, true, true, true, false, false, false, false, false, false, false, false, false, false, false, false, false, false],
   [true, false, false, false, false, false, true, false, false, false, false, false, false, false, false, false, false, false, false, false, false],
   [true, false, true, true, true, false, true, false, false, false, false, false, false, false, false, false, false, false, false, false, false],
   [true, false, true, true, true, false, true, false, false, false, false, false, false, false, false, false, false, false, false, false, false],
   [true, false, true, true, true, false, true, false, false, false, false, false, false, false, false, false, false, false, false, false, false],
   [true, false, false, false, false, false, true, false, false, false, false, false, false, false, false, false, false, false, false, false, false],
   [true, true, true, true, true, true, true, false, false, false, false, false, false, false, false, false, false, false, false, false, false]]

/-- Literal placement state for payload "1" after the first 210 zigzag cells. -/
def cAm0 : QRMatrix :=
  [[true, true, true, true, true, true, true, false, false, false, false, false, false, false, false, false, false, false, false, false, false],
   [true, false, false, false, false, false, true, false, false, false, false, false, false, false, false, false, false, false, false, false, false],
   [true, false, true, true, true, false, true, false, false, false, false, false, false, false, false, false, false, false, false, false, false],
   [true, false, true, true, true, false, true, false, false, false, false, false, false, false, false, false, false, false, false, false, false],
   [true, false, true, true, true, false, true, false, false, false, false, false, false, false, false, false, false, false, false, false, false],
   [true, false, false, false, false, false, true, false, false, false, false, false, false, false, false, false, false, false, false, false, false],
   [true, true, true, true, true, true, true, false, true, false, true, false, false, false, false, false, false, false, false, false, false],
   [false, false, false, false, false, false, false, false, false, false, false, false, false, false, false, false, false, false, false, false, false],
   [false, false, false, false, false, false, true, false, false, false, false, false, false, false, false, false, false, false, false, false, false],
   [false, false, false, false, false, false, false, false, false, false, false, false, false, false, false, false, false, false, false, false, false],
   [false, false, false, false, false, false, true, false, false, false, false, false, false, false, false, false, false, false, false, false, false],
   [false, false, false, false, false, false, false, false, false, false, false, false, false, false, false, false, false, false, false, false, false],
   [false, false, false, false, false, false, true, false, false, false, false, false, false, false, false, false, false, false, false, true, false],
   [false, false, false, false, false, false, false, false, true, false, false, false, false, false, false, false, false, false, false, false, false],
   [true, true, true, true, true, true, true, false, false, false, false, false, false, false, false, false, false, false, false, true, false],
   [true, false, false, false, false, false, true, false, false, false, false, false, false, false, false, false, false, false, false, false, false],
   [true, false, true, true, true, false, true, false, false, false, false, false, false, false, false, false, false, false, false, false, false],
   [true, false, true, true, true, false, true, false, false, false, false, false, false, false, false, false, false, false, false, false, false],
   [true, false, true, true, true, false, true, false, false, false, false, false, false, false, false, false, false, false, false, false, false],
   [true, false, false, false, false, false, true, false, false, false, false, false, false, false, false, false, false, false, false, true, false],
   [true, true, true, true, true, true, true, false, false, false, false, false, false, false, false, false, false, false, false, false, false]]

/-- Literal pre-mask matrix for payload "1" (all 420 zigzag cells placed). -/
def cAm1 : QRMatrix :=
  [[false, false, false, false, false, false, true, false, false, false, false, false, false, false, false, false, false, false, false, false, false],
   [false, false, false, false, false, false, true, false, false, false, false, false, false, false, false, false, false, false, false, false, false],
   [false, false, false, false, false, false, true, false, false, false, false, false, false, false, false, false, false, false, false, false, false],
   [false, false, false, false, false, false, true, false, false, false, false, false, false, false, false, false, false, false, false, false, false],
   [false, false, false, false, false, false, true, false, false, false, false, false, false, false, false, false, false, false, false, false, false],
   [false, false, false, false, false, false, true, false, false, false, false, false, false, false, false, false, false, false, false, false, false],
   [false, false, false, false, false, false, true, false, false, false, false, false, false, false, false, false, false, false, false, false, false],
   [false, false, false, false, false, false, false, false, false, false, false, false, false, false, false, false, false, false, false, false, false],
   [false, false, false, false, false, false, true, false, false, false, false, false, false, false, false, false, false, false, false, false, false],
   [false, false, false, false, false, false, false, false, false, false, false, false, false, false, false, false, false, false, false, false, false],
   [false, false, false, false, false, false, true, false, false, false, false, false, false, false, false, false, false, false, false, false, false],
   [false, false, false, false, false, false, false, false, false, false, false, false, false, false, false, false, false, false, false, false, false],
   [false, false, false, false, false, false, true, false, false, false, false, false, false, false, false, false, false, false, false, true, false],
   [false, false, false, false, false, false, false, false, false, false, false, false, false, false, false, false, false, false, false, false, false],
   [false, false, false, false, false, false, true, false, false, false, false, false, false, false, false, false, false, false, false, true, false],
   [false, false, false, false, false, false, true, false, false, false, false, false, false, false, false, false, false, false, false, false, false],
   [false, false, false, false, false, false, true, false, false, false, false, false, false, false, false, false, false, false, false, false, false],
   [false, false, false, false, false, false, true, false, false, false, false, false, false, false, false, false, false, false, false, false, false],
   [false, false, false, false, false, false, true, false, false, false, false, false, false, false, false, false, false, false, false, false, false],
   [false, false, false, false, false, false, true, false, false, false, false, false, false, false, false, false, false, false, false, true, false],
   [false, false, false, false, false, false, true, false, false, false, false, false, false, false, false, false, false, false, false, false, false]]

/-- Literal placement state for payload "m2elgiff" after the first 210 zigzag cells. -/
def cBm0 : QRMatrix :=
  [[true, true, true, true, true, true, true, false, false, false, false, false, false, false, false, false, false, false, false, true, true],
   [true, false, false, false, false, false, true, false, false, false, false, false, false, false, false, false, false, true, false, false, true],
   [true, false, true, true, true, false, true, false, false, false, false, false, false, false, false, false, false, false, true, true, false],
   [true, false, true, true, true, false, true, false, false, false, false, false, false, false, false, false, false, true, false, true, false],
   [true, false, true, true, true, false, true, false, false, false, false, false, false, false, false, false, false, true, true, true, false],
   [true, false, false, false, false, false, true, false, false, false, false, false, false, false, false, false, false, true, false, false, true],
   [true, true, true, true, true, true, true, false, true, false, true, false, false, false, false, false, false, false, true, true, false],
   [false, false, false, false, false, false, false, false, false, false, false, false, false, false, false, false, false, false, true, false, true],
   [false, false, false, false, false, false, true, false, false, false, false, false, false, false, false, false, false, true, false, false, false],
   [false, false, false, false, false, false, false, false, false, false, false, false, false, false, false, false, false, true, false, true, true],
   [false, false, false, false, false, false, true, false, false, false, false, false, false, false, false, false, false, false, true, false, false],
   [false, false, false, false, false, false, false, false, false, false, false, false, false, false, false, false, false, true, false, true, false],
   [false, false, false, false, false, false, true, false, false, false, false, false, false, false, false, false, false, false, true, true, true],
   [false, false, false, false, false, false, false, false, true, false, false, false, false, false, false, false, false, true, false, false, true],
   [true, true, true, true, true, true, true, false, false, false, false, false, false, false, false, false, false, false, true, true, false],
   [true, false, false, false, false, false, true, false, false, false, false, false, false, false, false, false, false, true, false, false, false],
   [true, false, true, true, true, false, true, false, false, false, false, false, false, false, false, false, false, false, true, false, true],
   [true, false, true, true, true, false, true, false, false, false, false, false, false, false, false, false, false, false, false, false, false],
   [true, false, true, true, true, false, true, false, false, false, false, false, false, false, false, false, false, false, false, false, false],
   [true, false, false, false, false, false, true, false, false, false, false, false, false, false, false, false, false, false, false, false, false],
   [true, true, true, true, true, true, true, false, false, false, false, false, false, false, false, false, false, false, false, true, false]]

/-- Literal pre-mask matrix for payload "m2elgiff" (all 420 zigzag cells placed). -/
def cBm1 : QRMatrix :=
  [[false, false, false, false, false, false, true, false, false, false, false, false, false, false, false, false, false, false, false, true, true],
   [false, false, false, false, false, false, true, false, false, false, false, false, false, false, false, false, false, true, false, false, true],
   [false, false, false, false, false, false, true, false, false, false, false, false, false, false, false, false, false, false, true, true, false],
   [false, false, false, false, false, false, true, false, false, false, false, false, false, false, false, false, false, true, false, true, false],
   [false, false, false, false, false, false, true, false, false, false, false, false, false, false, false, false, false, true, true, true, false],
   [false, false, false, false, false, false, true, false, false, false, false, false, false, false, false, false, false, true, false, false, true],
   [false, false, false, false, false, false, true, false, false, false, false, false, false, false, false, false, false, false, true, true, false],
   [false, false, false, false, false, false, false, false, false, false, false, false, false, false, false, false, false, false, true, false, true],
   [false, false, false, false, false, false, true, false, false, false, false, false, false, false, false, false, false, true, false, false, false],
   [false, false, false, false, false, false, false, false, false, false, false, false, false, false, false, false, false, true, false, true, true],
   [false, false, false, false, false, false, true, false, false, false, false, false, false, false, false, false, false, false, true, false, false],
   [false, false, false, false, false, false, false, false, false, false, false, false, false, false, false, false, false, true, false, true, false],
   [false, false, false, false, false, false, true, false, false, false, false, false, false, false, false, false, false, false, true, true, true],
   [false, false, false, false, false, false, false, false, false, false, false, false, false, false, false, false, false, true, false, false, true],
   [false, false, false, false, false, false, true, false, false, false, false, false, false, false, false, false, false, false, true, true, false],
   [false, false, false, false, false, false, true, false, false, false, false, false, false, false, false, false, false, true, false, false, false],
   [false, false, false, false, false, false, true, false, false, false, false, false, false, false, false, false, false, false, true, false, true],
   [false, false, false, false, false, false, true, false, false, false, false, false, false, false, false, false, false, false, false, false, false],
   [false, false, false, false, false, false, true, false, false, false, false, false, false, false, false, false, false, false, false, false, false],
   [false, false, false, false, false, false, true, false, false, false, false, false, false, false, false, false, false, false, false, false, false],
   [false, false, false, false, false, false, true, false, false, false, false, false, false, false, false, false, false, false, false, true, false]]

/-- Literal bit list of `encodeData "1"`. -/
def cAbits : List Nat :=
  [0, 0, 0, 1, 0, 0, 0, 0, 0, 0, 0, 0, 0, 1, 0, 0, 0, 1]

/-- Literal bit list of `encodeData "m2elgiff"`. -/
def cBbits : List Nat :=
  [0, 1, 0, 0, 0, 0, 0, 0, 1, 0, 0, 0, 0, 1, 1, 0, 1, 1, 0, 1, 0, 0, 1, 1, 0, 0, 1, 0, 0, 1, 1, 0, 0, 1, 0, 1, 0, 1, 1, 0, 1, 1, 0, 0, 0, 1, 1, 0, 0, 1, 1, 1, 0, 1, 1, 0, 1, 0, 0, 1, 0, 1, 1, 0, 0, 1, 1, 0, 0, 1, 1, 0, 0, 1, 1, 0]

/-- The arithmetic bit count of the mode-specific payload packing: numeric
groups of 3 digits → 10 bits with a 2-digit remainder → 7 bits and a 1-digit
remainder → 4 bits; alphanumeric pairs → 11 bits with a trailing single
character → 6 bits; bytes → 8 bits each. -/
def payloadBitLen (s : String) : Nat :=
  match detectDataMode s with
  | .NUMERIC =>
    10 * (s.length / 3) + (if s.length % 3 = 0 then 0 else if s.length % 3 = 1 then 4 else 7)
  | .ALPHANUMERIC => 11 * (s.length / 2) + (if s.length % 2 = 0 then 0 else 6)
  | .BYTE => 8 * s.length

/-- The statement of claim C3 at a given payload, level and mask argument:
the resolved version is the least version of 1..40 whose capacity covers the
payload, and `generate` without a forced version returns a square matrix of
side `17 + 4·version` — or fails when no version of 1..40 suffices. -/
def C3Prop (s : String) (l : ECLevel) (mp : Option Nat) : Prop :=
  match determineVersion s l with
  | some v =>
      1 ≤ v ∧ v ≤ 40 ∧ s.length ≤ getCapacity v l (detectDataMode s) ∧
      (∀ u, 1 ≤ u → u < v → getCapacity u l (detectDataMode s) < s.length) ∧
      ∃ m, generate s l none mp = .ok m ∧
        m.length = 17 + 4 * v ∧ ∀ row ∈ m, row.length = 17 + 4 * v
  | none =>
      (∀ u, 1 ≤ u → u ≤ 40 → getCapacity u l (detectDataMode s) < s.length) ∧
      generate s l none mp = .error "Data too long for QR code"

/-- The amended statement of claim C4 at a given payload: numeric iff all
characters are digits, alphanumeric iff all characters are in the
45-character set but not all are digits, byte iff not all characters are in
the 45-character set. -/
def C4Prop (s : String) : Prop :=
  (detectDataMode s = DataMode.NUMERIC ↔ s.data.all Char.isDigit = true) ∧
  (detectDataMode s = DataMode.ALPHANUMERIC ↔
    (s.data.all isAlnumChar = true ∧ s.data.all Char.isDigit = false)) ∧
  (detectDataMode s = DataMode.BYTE ↔ s.data.all isAlnumChar = false)

/-- The amended statement of claim C6 on a pre-mask matrix: the selected
mask index is at most 7, its trial penalty (under the two implemented
rules) is minimal among all eight candidates, and every candidate of
smaller index has a strictly larger penalty. -/
def C6SelProp (modules : Nat) (m : QRMatrix) : Prop :=
  selectBestMaskPattern modules m ≤ 7 ∧
  (∀ k, k ≤ 7 →
    maskPenaltyOf modules m (selectBestMaskPattern modules m) ≤ maskPenaltyOf modules m k) ∧
  (∀ k, k < selectBestMaskPattern modules m →
    maskPenaltyOf modules m (selectBestMaskPattern modules m) < maskPenaltyOf modules m k)

/-- `addErrorCorrection ∘ encodeData` on `"1"` yields the literal bit list. -/
theorem cAbits_eval : encodeData "1" = cAbits := by decide

/-- `addErrorCorrection ∘ encodeData` on `"m2elgiff"` yields the literal bit
list. -/
theorem cBbits_eval : encodeData "m2elgiff" = cBbits := by decide

/-- The version-1 structural stamping pipeline evaluates to `stampLit`. -/
theorem stamp_eval :
    addDarkModule 1 21 (addTimingPatterns 21 (addAlignmentPatterns 1 21
      (addSeparators 21 (addFinderPatterns 21 (initializeMatrix 21))))) = stampLit := by
  decide

/-- First half of the zigzag placement for payload `"1"`. -/
theorem chunkA0 :
    ((placeOrder 21).take 210).foldl (placeStep 21 cAbits) (stampLit, 0) = (cAm0, 18) := by
  decide

/-- Second half of the zigzag placement for payload `"1"`. -/
theorem chunkA1 :
    ((placeOrder 21).drop 210).foldl (placeStep 21 cAbits) (cAm0, 18) = (cAm1, 18) := by
  decide

/-- First half of the zigzag placement for payload `"m2elgiff"`. -/
theorem chunkB0 :
    ((placeOrder 21).take 210).foldl (placeStep 21 cBbits) (stampLit, 0) = (cBm0, 76) := by
  decide

/-- Second half of the zigzag placement for payload `"m2elgiff"`. -/
theorem chunkB1 :
    ((placeOrder 21).drop 210).foldl (placeStep 21 cBbits) (cBm0, 76) = (cBm1, 76) := by
  decide

/-- The pre-mask matrix of the pipeline for payload `"1"` (version 1). -/
theorem preA_eval : buildPreMaskMatrix "1" 1 21 = cAm1 := by
  have h0 : buildPreMaskMatrix "1" 1 21 =
      placeDataModules 21 (encodeData "1")
        (addDarkModule 1 21 (addTimingPatterns 21 (addAlignmentPatterns 1 21
          (addSeparators 21 (addFinderPatterns 21 (initializeMatrix 21)))))) := rfl
  have h1 : placeDataModules 21 cAbits stampLit =
      ((placeOrder 21).foldl (placeStep 21 cAbits) (stampLit, 0)).1 := rfl
  rw [h0, cAbits_eval, stamp_eval, h1, ← List.take_append_drop 210 (placeOrder 21),
    List.foldl_append, chunkA0, chunkA1]

/-- The pre-mask matrix of the pipeline for payload `"m2elgiff"` (version 1). -/
theorem preB_eval : buildPreMaskMatrix "m2elgiff" 1 21 = cBm1 := by
  have h0 : buildPreMaskMatrix "m2elgiff" 1 21 =
      placeDataModules 21 (encodeData "m2elgiff")
        (addDarkModule 1 21 (addTimingPatterns 21 (addAlignmentPatterns 1 21
          (addSeparators 21 (addFinderPatterns 21 (initializeMatrix 21)))))) := rfl
  have h1 : placeDataModules 21 cBbits stampLit =
      ((placeOrder 21).foldl (placeStep 21 cBbits) (stampLit, 0)).1 := rfl
  rw [h0, cBbits_eval, stamp_eval, h1, ← List.take_append_drop 210 (placeOrder 21),
    List.foldl_append, chunkB0, chunkB1]

/-- `toBits` always returns exactly `bitCount` bits. -/
theorem toBits_length (num bitCount : Nat) : (toBits num bitCount).length = bitCount := by
  simp [toBits]

/-- Bit count of the numeric grouping loop: 10 bits per full group of 3,
then 7 or 4 bits for a remainder of 2 or 1 characters. -/
theorem encodeNumericChunks_length : ∀ cs : List Char,
    (encodeNumericChunks cs).length =
      10 * (cs.length / 3) +
        (if cs.length % 3 = 0 then 0 else if cs.length % 3 = 1 then 4 else 7)
  | [] => by simp [encodeNumericChunks]
  | [a] => by simp [encodeNumericChunks, toBits_length]
  | [a, b] => by simp [encodeNumericChunks, toBits_length]
  | a :: b :: c :: rest => by
    have ih := encodeNumericChunks_length rest
    simp only [encodeNumericChunks, List.length_append, toBits_length, ih,
      List.length_cons]
    split_ifs <;> omega

/-- Bit count of the alphanumeric pairing loop: 11 bits per pair, 6 for a
trailing single character. -/
theorem encodeAlnumChunks_length : ∀ cs : List Char,
    (encodeAlnumChunks cs).length =
      11 * (cs.length / 2) + (if cs.length % 2 = 0 then 0 else 6)
  | [] => by simp [encodeAlnumChunks]
  | [a] => by simp [encodeAlnumChunks, toBits_length]
  | a :: b :: rest => by
    have ih := encodeAlnumChunks_length rest
    simp only [encodeAlnumChunks, List.length_append, toBits_length, ih,
      List.length_cons]
    split_ifs <;> omega

/-- Bit count of the byte loop: 8 bits per character. -/
theorem encodeByteChunks_length : ∀ cs : List Char,
    (encodeByteChunks cs).length = 8 * cs.length
  | [] => by simp [encodeByteChunks]
  | c :: rest => by
    have ih := encodeByteChunks_length rest
    simp only [encodeByteChunks, List.length_append, toBits_length, ih,
      List.length_cons]
    ring

/-- Every ASCII decimal digit is in the 45-character alphanumeric set. -/
theorem isAlnumChar_of_isDigit (c : Char) (h : c.isDigit = true) : isAlnumChar c = true := by
  have hb : 48 ≤ c.val.toNat ∧ c.val.toNat ≤ 57 := by
    simp only [Char.isDigit, Bool.and_eq_true, decide_eq_true_eq] at h
    exact ⟨h.1, h.2⟩
  have h10 : c.val.toNat = 48 ∨ c.val.toNat = 49 ∨ c.val.toNat = 50 ∨ c.val.toNat = 51 ∨
      c.val.toNat = 52 ∨ c.val.toNat = 53 ∨ c.val.toNat = 54 ∨ c.val.toNat = 55 ∨
      c.val.toNat = 56 ∨ c.val.toNat = 57 := by omega
  rcases h10 with h|h|h|h|h|h|h|h|h|h
  · rw [show c = Char.mk 48 (by decide) from Char.ext (UInt32.ext (by rw [h]; rfl))]; decide
  · rw [show c = Char.mk 49 (by decide) from Char.ext (UInt32.ext (by rw [h]; rfl))]; decide
  · rw [show c = Char.mk 50 (by decide) from Char.ext (UInt32.ext (by rw [h]; rfl))]; decide
  · rw [show c = Char.mk 51 (by decide) from Char.ext (UInt32.ext (by rw [h]; rfl))]; decide
  · rw [show c = Char.mk 52 (by decide) from Char.ext (UInt32.ext (by rw [h]; rfl))]; decide
  · rw [show c = Char.mk 53 (by decide) from Char.ext (UInt32.ext (by rw [h]; rfl))]; decide
  · rw [show c = Char.mk 54 (by decide) from Char.ext (UInt32.ext (by rw [h]; rfl))]; decide
  · rw [show c = Char.mk 55 (by decide) from Char.ext (UInt32.ext (by rw [h]; rfl))]; decide
  · rw [show c = Char.mk 56 (by decide) from Char.ext (UInt32.ext (by rw [h]; rfl))]; decide
  · rw [show c = Char.mk 57 (by decide) from Char.ext (UInt32.ext (by rw [h]; rfl))]; decide

/-- C1: the error-correction stage of the source is the identity: it
appends no Reed-Solomon codewords, so its output has exactly the length of
its data input (18 bits for payload "1") — never strictly more. -/
theorem C1_error_correction_is_identity :
    (∀ data : List Nat, addErrorCorrection data = data) ∧
    (addErrorCorrection (encodeData "1")).length = (encodeData "1").length ∧
    (encodeData "1").length = 18 :=
  ⟨fun _ => rfl, rfl, by decide⟩

/-- C4 counterexample: the all-digit payload "123" has every character in
the 45-character alphanumeric set, yet `detectDataMode` returns NUMERIC,
not ALPHANUMERIC — so "returns alphanumeric iff every character is in the
45-character set" fails as stated. -/
theorem C4_numeric_beats_alphanumeric :
    detectDataMode "123" = DataMode.NUMERIC ∧
    "123".data.all isAlnumChar = true ∧
    DataMode.NUMERIC ≠ DataMode.ALPHANUMERIC := by
  refine ⟨by decide, by decide, by decide⟩

/-- C4 (amended): for every non-empty payload, mode selection returns
NUMERIC iff all characters are digits, ALPHANUMERIC iff all characters are
in the 45-character set but not all are digits, and BYTE iff not all
characters are in the 45-character set. -/
theorem C4_mode_selection (s : String) (h : s ≠ "") : C4Prop s := by
  have hne : s.data.isEmpty = false := by
    cases s with
    | mk d =>
      cases d with
      | nil => exact absurd rfl h
      | cons a t => rfl
  have hsub : s.data.all Char.isDigit = true → s.data.all isAlnumChar = true := by
    intro hall
    rw [List.all_eq_true] at hall ⊢
    exact fun c hc => isAlnumChar_of_isDigit c (hall c hc)
  unfold C4Prop detectDataMode
  rw [hne]
  by_cases hd : s.data.all Char.isDigit = true
  · have ha := hsub hd
    simp [hd, ha]
  · by_cases ha : s.data.all isAlnumChar = true
    · simp [hd, ha]
    · simp [hd, ha]

/-- C4 witness: the amended mode-selection contract at the concrete
payload "A:". -/
theorem C4_mode_selection_witness : C4Prop "A:" :=
  C4_mode_selection "A:" (by decide)

/-- C5 counterexample: for payload "1" the bitstream encoder outputs 18
bits, which is not a multiple of 8 — so no terminator/zero padding to a
codeword boundary and no 0xEC/0x11 codeword padding took place, and the
output is not a codeword sequence. -/
theorem C5_no_padding_for_payload_one :
    (encodeData "1").length = 18 ∧ (encodeData "1").length % 8 ≠ 0 := by
  refine ⟨by decide, by decide⟩

/-- C5 (amended): the bitstream encoder emits exactly the 4-bit mode
indicator, the character-count indicator and the packed payload bits, with
no terminator, no padding to a codeword boundary and no 0xEC/0x11 padding
bytes: its output length is exactly `4 + charCountBits + payload bits`. -/
theorem C5_encoder_raw_bits (s : String) :
    (encodeData s).length = 4 + getCharCountBits (detectDataMode s) + payloadBitLen s := by
  have hsl : s.length = s.data.length := rfl
  have hed : encodeData s =
      toBits (detectDataMode s).value 4 ++
        toBits s.length (getCharCountBits (detectDataMode s)) ++
        (match detectDataMode s with
          | .NUMERIC => encodeNumeric s
          | .ALPHANUMERIC => encodeAlphanumeric s
          | .BYTE => encodeByte s) := rfl
  rw [hed]
  unfold payloadBitLen
  rcases hm : detectDataMode s with _ | _ | _ <;>
    simp only [hm, List.length_append, toBits_length, encodeNumeric, encodeAlphanumeric,
      encodeByte, encodeNumericChunks_length, encodeAlnumChunks_length,
      encodeByteChunks_length, hsl, getCharCountBits] <;>
    (try split_ifs) <;> omega

/-- C7: numeric encoding packs each full group of 3 digits into 10 bits,
a trailing 2-digit remainder into 7 bits and a trailing 1-digit remainder
into 4 bits; in particular "12345" packs into 10 + 7 = 17 bits. -/
theorem C7_numeric_packing (s : String) (h : ∀ c ∈ s.data, c.isDigit) :
    (encodeNumeric s).length =
      10 * (s.length / 3) +
        (if s.length % 3 = 0 then 0 else if s.length % 3 = 1 then 4 else 7) ∧
    (encodeNumeric "12345").length = 17 := by
  exact ⟨encodeNumericChunks_length s.data, by decide⟩

/-- C7 witness: the packing rule instantiated at the digit string "12345". -/
theorem C7_numeric_packing_witness :
    (encodeNumeric "12345").length =
      10 * ("12345".length / 3) +
        (if "12345".length % 3 = 0 then 0 else if "12345".length % 3 = 1 then 4 else 7) ∧
    (encodeNumeric "12345").length = 17 :=
  C7_numeric_packing "12345" (by decide)

/-- C9: option merging maps a forced mask pattern of 0 to `undefined`
(`none`), exactly as passing no mask pattern, so `generate` auto-selects
the mask by penalty scoring in both cases, while forced patterns 1..7
survive merging and are applied as given. -/
theorem C9_mask_zero_means_auto (k : Nat) (h1 : 1 ≤ k) (h7 : k ≤ 7) :
    mergeMaskPattern (some 0) = none ∧
    mergeMaskPattern none = none ∧
    mergeMaskPattern (some k) = some k ∧
    (∀ s l v, generate s l v (mergeMaskPattern (some 0)) = generate s l v none) ∧
    (∀ modules m, resolveMask modules none m = selectBestMaskPattern modules m) ∧
    (∀ modules m p, resolveMask modules (some p) m = p) := by
  refine ⟨rfl, rfl, ?_, fun _ _ _ => rfl, fun _ _ => rfl, fun _ _ _ => rfl⟩
  have hk : k ≠ 0 := by omega
  simp [mergeMaskPattern, hk]

/-- C9 witness: the merge behaviour at the concrete forced pattern 3. -/
theorem C9_mask_zero_means_auto_witness :
    mergeMaskPattern (some 0) = none ∧
    mergeMaskPattern none = none ∧
    mergeMaskPattern (some 3) = some 3 ∧
    (∀ s l v, generate s l v (mergeMaskPattern (some 0)) = generate s l v none) ∧
    (∀ modules m, resolveMask modules none m = selectBestMaskPattern modules m) ∧
    (∀ modules m p, resolveMask modules (some p) m = p) :=
  C9_mask_zero_means_auto 3 (by decide) (by decide)

/-- C10: applying any mask flips only cells classified as data modules:
every in-range cell on row 6, on column 6, or inside one of the three
corner finder regions is left unchanged by `applyMaskToMatrix`. -/
theorem C10_mask_preserves_function_modules (modules pattern x y : Nat) (m : QRMatrix)
    (hx : x < modules) (hy : y < modules)
    (h : y = 6 ∨ x = 6 ∨ isFinderPattern modules x y = true) :
    getM (applyMaskToMatrix modules m pattern) y x = getM m y x := by
  have hdm : isDataModule modules x y = false := by
    rcases h with h | h | h <;>
      simp [isDataModule, h]
  have h1 : (List.range modules)[y]? = some y := List.getElem?_range hy
  have h2 : (List.range modules)[x]? = some x := List.getElem?_range hx
  rw [applyMaskToMatrix, getM, List.getD_eq_getElem?_getD, List.getD_eq_getElem?_getD,
    List.getElem?_map, h1]
  simp only [Option.map_some', Option.getD_some]
  rw [List.getElem?_map, h2]
  simp [hdm]

/-- C10 witness: a timing-column cell of a concrete matrix is unchanged by
mask 0. -/
theorem C10_mask_preserves_function_modules_witness :
    getM (applyMaskToMatrix 21 (initializeMatrix 21) 0) 0 6 = getM (initializeMatrix 21) 0 6 :=
  C10_mask_preserves_function_modules 21 0 6 0 (initializeMatrix 21)
    (by decide) (by decide) (Or.inr (Or.inl rfl))

/-- C2 (divergence witness): for payload "1" at level M with forced mask 0,
the finished matrix returned by `generate` holds a light module at (0, 0),
although the stamped finder pattern fixes that cell dark — data placement
(`isEmpty` returning true unconditionally) has overwritten the finder
pattern. -/
theorem C2_finder_corner_overwritten :
    (generate "1" ECLevel.M none (some 0)).toOption.map (fun mtx => getM mtx 0 0) =
      some false ∧
    getM finderPattern 0 0 = true := by
  refine ⟨?_, by decide⟩
  have hg : generate "1" ECLevel.M none (some 0) =
      .ok (applyMaskToMatrix 21 (buildPreMaskMatrix "1" 1 21) 0) := rfl
  rw [hg, preA_eval]
  decide

/-- C6 counterexample: for payload "m2elgiff" at level M (version 1, no
forced mask) the source selects mask 0, but under the four standard penalty
rules of the spec the trial matrix of mask 7 scores strictly lower than the
trial matrix of mask 0 — so the selected mask does not have the lowest
four-rule penalty. -/
theorem C6_selection_differs_from_four_rules :
    determineVersion "m2elgiff" ECLevel.M = some 1 ∧
    selectBestMaskPattern 21 (buildPreMaskMatrix "m2elgiff" 1 21) = 0 ∧
    specMaskPenalty 21 (applyMaskToMatrix 21 (buildPreMaskMatrix "m2elgiff" 1 21) 7) <
      specMaskPenalty 21 (applyMaskToMatrix 21 (buildPreMaskMatrix "m2elgiff" 1 21) 0) := by
  refine ⟨by decide, ?_, ?_⟩ <;> rw [preB_eval] <;> decide

/-- The only error `chooseVersion` can produce is the capacity failure. -/
theorem chooseVersion_error_msg (s : String) (l : ECLevel) (v : Option Nat) (e : String)
    (h : chooseVersion s l v = .error e) : e = "Data too long for QR code" := by
  unfold chooseVersion at h
  rcases v with _ | n
  · revert h
    rcases determineVersion s l with _ | w <;> intro h
    · exact (Except.error.injEq _ _).mp h |>.symm ▸ rfl
    · exact absurd h (by simp)
  · revert h
    by_cases hn : n = 0 <;> simp [hn]
    · rcases determineVersion s l with _ | w <;> intro h
      · exact ((Except.error.injEq _ _).mp h).symm
      · exact absurd h (by simp)

/-- Empty strings have length 0 and non-empty strings do not. -/
theorem length_ne_zero_of_ne_empty (s : String) (h : s ≠ "") : s.length ≠ 0 := by
  cases s with
  | mk d =>
    cases d with
    | nil => exact absurd rfl h
    | cons a t => simp [String.length]

/-- C8: for the empty payload, `generate` fails with the empty-payload
error (and returns no matrix) for every level, forced version and mask
argument; for every non-empty payload that error is never raised. -/
theorem C8_empty_payload_rejected (s : String) (l : ECLevel) (v mp : Option Nat)
    (h : s ≠ "") :
    generate "" l v mp = .error "Input data cannot be empty" ∧
    generate s l v mp ≠ .error "Input data cannot be empty" ∧
    validateData "" = .error "Invalid input data" ∧
    validateData s = .ok () := by
  have hauto : ∀ lv : ECLevel, determineVersion "" lv = some 1 := by
    intro lv; cases lv <;> rfl
  refine ⟨?_, ?_, rfl, if_neg (length_ne_zero_of_ne_empty s h)⟩
  · unfold generate
    have hok : ∀ ver : Nat, validateInput "" ver = .error "Input data cannot be empty" := by
      intro ver; rfl
    rcases v with _ | n
    · simp [chooseVersion, hauto l, hok]
    · by_cases hn : n = 0 <;> simp [chooseVersion, hn, hauto l, hok]
  · have hlen := length_ne_zero_of_ne_empty s h
    unfold generate
    rcases hcv : chooseVersion s l v with e | ver <;> simp only [hcv]
    · have he := chooseVersion_error_msg s l v e hcv
      subst he
      intro hco
      injection hco with hx
      exact absurd hx (by decide)
    · rcases hvi : validateInput s ver with e2 | u <;> simp only [hvi]
      · have he2 : e2 = "Version must be between 1 and 40" := by
          unfold validateInput at hvi
          rw [if_neg hlen] at hvi
          revert hvi
          split <;> intro hvi
          · exact ((Except.error.injEq _ _).mp hvi).symm
          · exact absurd hvi (by simp)
        subst he2
        intro hco
        injection hco with hx
        exact absurd hx (by decide)
      · intro hco
        exact Except.noConfusion hco

/-- C8 witness: the empty-payload contract at level M, payload "1", no
forced version, forced mask 0. -/
theorem C8_empty_payload_rejected_witness :
    generate "" ECLevel.M none (some 0) = .error "Input data cannot be empty" ∧
    generate "1" ECLevel.M none (some 0) ≠ .error "Input data cannot be empty" ∧
    validateData "" = .error "Invalid input data" ∧
    validateData "1" = .ok () :=
  C8_empty_payload_rejected "1" ECLevel.M none (some 0) (by decide)

/-- The version scan from `v` with fuel `41 - v` finds exactly the least
version in `v..40` whose capacity covers the payload, or reports that none
exists. -/
theorem scanVersionAux_spec (s : String) (l : ECLevel) :
    ∀ (fuel v : Nat), fuel = 41 - v → 1 ≤ v →
      (match scanVersionAux s l fuel v with
       | some r =>
           v ≤ r ∧ r ≤ 40 ∧ s.length ≤ getCapacity r l (detectDataMode s) ∧
           ∀ u, v ≤ u → u < r → getCapacity u l (detectDataMode s) < s.length
       | none => ∀ u, v ≤ u → u ≤ 40 → getCapacity u l (detectDataMode s) < s.length)
  | 0, v, hf, hv => by
    simp only [scanVersionAux]
    intro u hu h40
    omega
  | fuel + 1, v, hf, hv => by
    simp only [scanVersionAux]
    by_cases h40 : 40 < v
    · simp only [if_pos h40]
      intro u hu hle
      omega
    · simp only [if_neg h40]
      by_cases hcap : s.length ≤ getCapacity v l (detectDataMode s)
      · simp only [if_pos hcap]
        exact ⟨le_refl v, by omega, hcap, fun u hu hur => by omega⟩
      · simp only [if_neg hcap]
        have hrec := scanVersionAux_spec s l fuel (v + 1) (by omega) (by omega)
        revert hrec
        rcases scanVersionAux s l fuel (v + 1) with _ | r <;> intro hrec
        · intro u hu h40u
          rcases Nat.eq_or_lt_of_le hu with rfl | hlt
          · omega
          · exact hrec u (by omega) h40u
        · obtain ⟨h1, h2, h3, h4⟩ := hrec
          refine ⟨by omega, h2, h3, ?_⟩
          intro u hu hur
          rcases Nat.eq_or_lt_of_le hu with rfl | hlt
          · omega
          · exact h4 u (by omega) hur

/-- `determineVersion` finds exactly the least version of 1..40 whose
capacity covers the payload, or reports that none exists. -/
theorem determineVersion_spec (s : String) (l : ECLevel) :
    (match determineVersion s l with
     | some r =>
         1 ≤ r ∧ r ≤ 40 ∧ s.length ≤ getCapacity r l (detectDataMode s) ∧
         ∀ u, 1 ≤ u → u < r → getCapacity u l (detectDataMode s) < s.length
     | none => ∀ u, 1 ≤ u → u ≤ 40 → getCapacity u l (detectDataMode s) < s.length) :=
  scanVersionAux_spec s l 40 1 (by omega) (by omega)

/-- C3: for every non-empty payload, level and mask argument, with no
forced version: the resolved version is the least version of 1..40 whose
capacity (for the detected mode and requested level) covers the payload
length, and `generate` returns a square matrix of side `17 + 4·version`;
when no version of 1..40 suffices, `generate` fails. -/
theorem C3_version_selection_and_size (s : String) (l : ECLevel) (mp : Option Nat)
    (h : s ≠ "") : C3Prop s l mp := by
  have hlen := length_ne_zero_of_ne_empty s h
  have hspec := determineVersion_spec s l
  unfold C3Prop
  rcases hdv : determineVersion s l with _ | v <;> rw [hdv] at hspec
  · refine ⟨hspec, ?_⟩
    unfold generate
    simp [chooseVersion, hdv]
  · obtain ⟨h1, h2, h3, h4⟩ := hspec
    refine ⟨h1, h2, h3, h4, ?_⟩
    have hcv : chooseVersion s l none = .ok v := by simp [chooseVersion, hdv]
    have hvi : validateInput s v = .ok () := by
      unfold validateInput
      rw [if_neg hlen]
      split
      · rename_i hcond
        simp only [Bool.or_eq_true, decide_eq_true_eq] at hcond
        omega
      · rfl
    refine ⟨applyMaskToMatrix (getModuleCount v) (buildPreMaskMatrix s v (getModuleCount v))
      (resolveMask (getModuleCount v) mp (buildPreMaskMatrix s v (getModuleCount v))),
      ?_, ?_, ?_⟩
    · unfold generate
      simp only [hcv, hvi]
    · simp [applyMaskToMatrix, getModuleCount]
    · intro row hrow
      unfold applyMaskToMatrix at hrow
      rw [List.mem_map] at hrow
      obtain ⟨yy, _, rfl⟩ := hrow
      simp [getModuleCount]

/-- C3 witness: the version-selection contract at payload "1", level M,
forced mask 0. -/
theorem C3_version_selection_and_size_witness : C3Prop "1" ECLevel.M (some 0) :=
  C3_version_selection_and_size "1" ECLevel.M (some 0) (by decide)

/-- The strictly-lower-replacement fold over an ascending candidate list,
started after its first candidate `b`, returns the earliest candidate of
minimal penalty among `b :: l`. -/
theorem bestStep_spec (pen : Nat → Nat) :
    ∀ (l : List Nat) (b : Nat), List.Pairwise (fun a c => a < c) (b :: l) →
      ∃ r : Nat, l.foldl (bestStep pen) (b, some (pen b)) = (r, some (pen r)) ∧
        (r = b ∨ r ∈ l) ∧ pen r ≤ pen b ∧ (∀ p ∈ l, pen r ≤ pen p) ∧
        (r = b ∨ pen r < pen b) ∧
        (∀ q, (q = b ∨ q ∈ l) → q < r → pen r < pen q)
  | [], b, hp =>
    ⟨b, rfl, Or.inl rfl, le_refl _, by simp, Or.inl rfl, by
      intro q hq hlt
      rcases hq with rfl | hq
      · omega
      · simp at hq⟩
  | p :: l, b, hp => by
    have hcons := List.pairwise_cons.mp hp
    have hbp : b < p := hcons.1 p (by simp)
    have hbl : ∀ x ∈ l, b < x := fun x hx => hcons.1 x (by simp [hx])
    have hpl : List.Pairwise (fun a c => a < c) (p :: l) := hcons.2
    have hbl2 : List.Pairwise (fun a c => a < c) (b :: l) := by
      rw [List.pairwise_cons]
      exact ⟨hbl, (List.pairwise_cons.mp hpl).2⟩
    simp only [List.foldl_cons]
    by_cases hlt : pen p < pen b
    · have hstep : bestStep pen (b, some (pen b)) p = (p, some (pen p)) := by
        simp [bestStep, hlt]
      rw [hstep]
      obtain ⟨r, hr, hmem, hle, hall, hstrict, hfirst⟩ := bestStep_spec pen l p hpl
      refine ⟨r, hr, ?_, by omega, ?_, Or.inr (by omega), ?_⟩
      · rcases hmem with rfl | hm
        · exact Or.inr (by simp)
        · exact Or.inr (by simp [hm])
      · intro q hq
        rcases List.mem_cons.mp hq with rfl | hq2
        · exact hle
        · exact hall q hq2
      · intro q hq hqr
        rcases hq with rfl | hq2
        · omega
        · rcases List.mem_cons.mp hq2 with rfl | hq3
          · exact hfirst q (Or.inl rfl) hqr
          · exact hfirst q (Or.inr hq3) hqr
    · have hstep : bestStep pen (b, some (pen b)) p = (b, some (pen b)) := by
        simp [bestStep, hlt]
      rw [hstep]
      obtain ⟨r, hr, hmem, hle, hall, hstrict, hfirst⟩ := bestStep_spec pen l b hbl2
      refine ⟨r, hr, ?_, hle, ?_, hstrict, ?_⟩
      · rcases hmem with rfl | hm
        · exact Or.inl rfl
        · exact Or.inr (by simp [hm])
      · intro q hq
        rcases List.mem_cons.mp hq with rfl | hq2
        · omega
        · exact hall q hq2
      · intro q hq hqr
        rcases hq with rfl | hq2
        · exact hfirst q (Or.inl rfl) hqr
        · rcases List.mem_cons.mp hq2 with rfl | hq3
          · rcases hstrict with rfl | hpen
            · omega
            · omega
          · exact hfirst q (Or.inr hq3) hqr

/-- C6 (amended): for every matrix, the mask selected by
`selectBestMaskPattern` is an index 0..7 whose trial penalty under the two
implemented rules is minimal, and every smaller index has a strictly larger
trial penalty (so ties are broken toward the lowest index, candidates being
tried in ascending order with replacement only on strict improvement). -/
theorem C6_selected_mask_minimizes_two_rule_penalty (modules : Nat) (m : QRMatrix) :
    C6SelProp modules m := by
  have hfold : selectBestMaskPattern modules m =
      ([1, 2, 3, 4, 5, 6, 7].foldl (bestStep (maskPenaltyOf modules m))
        (0, some (maskPenaltyOf modules m 0))).1 := rfl
  obtain ⟨r, hr, hmem, hle, hall, hstrict, hfirst⟩ :=
    bestStep_spec (maskPenaltyOf modules m) [1, 2, 3, 4, 5, 6, 7] 0 (by decide)
  have hsel : selectBestMaskPattern modules m = r := by rw [hfold, hr]
  have hr7 : r ≤ 7 := by
    rcases hmem with rfl | hm
    · omega
    · simp at hm
      omega
  refine ⟨by rw [hsel]; exact hr7, ?_, ?_⟩
  · intro k hk
    rw [hsel]
    rcases Nat.eq_zero_or_pos k with rfl | hkpos
    · exact hle
    · refine hall k ?_
      simp only [List.mem_cons, List.mem_singleton]
      omega
  · intro k hk
    rw [hsel] at hk ⊢
    have hkmem : k = 0 ∨ k ∈ [1, 2, 3, 4, 5, 6, 7] := by
      rcases Nat.eq_zero_or_pos k with rfl | hp
      · exact Or.inl rfl
      · refine Or.inr ?_
        simp only [List.mem_cons, List.mem_singleton]
        omega
    exact hfirst k hkmem hk

/-- C5 witness: the raw-bit length formula at the concrete payload "1". -/
theorem C5_encoder_raw_bits_witness :
    (encodeData "1").length = 4 + getCharCountBits (detectDataMode "1") + payloadBitLen "1" :=
  C5_encoder_raw_bits "1"

/-- C6 witness: the two-rule selection contract at a concrete matrix. -/
theorem C6_selected_mask_minimizes_witness : C6SelProp 21 (initializeMatrix 21) :=
  C6_selected_mask_minimizes_two_rule_penalty 21 (initializeMatrix 21)

end QR
